import Mathlib

/-!
Verification of the CSV-to-chart pipeline scripts of this repository
(Generar.py, Generar0DTE.py, generar_graficos.py, dataflow.py,
spxvolbar3axes.py, spxvolbar3jes.py, graficar_dataflow.py) against the
natural-language specification.  Real numbers carried by the scripts are
modelled as rationals; pandas tables as lists of rows; exceptions as
Except / Option values.  Definitions come first, theorems afterwards.
-/

namespace GexPipeline

/-! ## Snapshot (volume-by-strike) data model -/

/-- One numeric data row of the snapshot table
(columns set at src/spxvolbar3axes.py line 58). -/
structure VolRow where
  strike : ℚ
  vol0DTE : ℚ
  vol1DTE : ℚ
  otherVol : ℚ
deriving DecidableEq, Repr

/-- Derived total volume per row:
`df["TotalVol"] = df["Vol0DTE"] + df["Vol1DTE"] + df["OtherVol"]`
(src/spxvolbar3axes.py line 66, src/graficar_dataflow.py line 137). -/
def totalVol (r : VolRow) : ℚ :=
  r.vol0DTE + r.vol1DTE + r.otherVol

/-- Lower cut point of the strike band:
`min_strike = spotSPX * 0.985` (src/spxvolbar3axes.py line 69,
src/graficar_dataflow.py line 140). -/
def minStrikeAxes (spotSPX : ℚ) : ℚ :=
  spotSPX * (985 / 1000)

/-- Upper cut point of the strike band:
`max_strike = spotSPX * 1.015` (src/spxvolbar3axes.py line 70,
src/graficar_dataflow.py line 141). -/
def maxStrikeAxes (spotSPX : ℚ) : ℚ :=
  spotSPX * (1015 / 1000)

/-- Band filter on strikes:
`df[(df["Strike"] >= min_strike) & (df["Strike"] <= max_strike)]`
(src/spxvolbar3axes.py line 72, src/graficar_dataflow.py line 145). -/
def filterStrikes (minStrike maxStrike : ℚ) (df : List VolRow) : List VolRow :=
  df.filter (fun r => decide (minStrike ≤ r.strike) && decide (r.strike ≤ maxStrike))

/-- `df_filtered.sort_values("Strike")` (src/spxvolbar3axes.py line 82):
reorder the rows by the Strike column.  Rows with equal strikes are all
kept; nothing is deduplicated. -/
def sortByStrike (df : List VolRow) : List VolRow :=
  List.insertionSort (fun a b => a.strike ≤ b.strike) df

instance : IsTotal VolRow (fun a b => a.strike ≤ b.strike) :=
  ⟨fun a b => le_total a.strike b.strike⟩

instance : IsTrans VolRow (fun a b => a.strike ≤ b.strike) :=
  ⟨fun _ _ _ hab hbc => le_trans hab hbc⟩

/-- `df_filtered["TotalVol"].idxmax()` followed by the `.loc` lookup
(src/spxvolbar3axes.py lines 135-138): the first row attaining the maximum
of the TotalVol column, `none` on an empty table. -/
def idxmaxTotal : List VolRow → Option VolRow
  | [] => none
  | r :: rs =>
    match idxmaxTotal rs with
    | none => some r
    | some m => if totalVol m ≤ totalVol r then some r else some m

/-- `df_filtered["TotalVol"].idxmin()` followed by the `.loc` lookup
(src/spxvolbar3axes.py lines 136-139): the first row attaining the minimum
of the TotalVol column, `none` on an empty table. -/
def idxminTotal : List VolRow → Option VolRow
  | [] => none
  | r :: rs =>
    match idxminTotal rs with
    | none => some r
    | some m => if totalVol r ≤ totalVol m then some r else some m

/-! ## Numeric coercion of raw snapshot rows -/

/-- Decimal digit test. -/
def isDigitCh (c : Char) : Bool :=
  decide ('0' ≤ c) && decide (c ≤ '9')

/-- Value of a nonempty all-digit character list. -/
def parseDigits? (l : List Char) : Option ℕ :=
  if l.isEmpty then none
  else if l.all isDigitCh then some (l.foldl (fun n c => 10 * n + (c.toNat - 48)) 0)
  else none

/-- Unsigned decimal literal, with an optional fractional part. -/
def parseUnsigned? (l : List Char) : Option ℚ :=
  match l.splitOn '.' with
  | [ds] => (parseDigits? ds).map (fun n => (n : ℚ))
  | [ds, fs] => do
      let intPart ← parseDigits? ds
      let fracPart ← parseDigits? fs
      pure ((intPart : ℚ) + (fracPart : ℚ) / ((10 : ℚ) ^ fs.length))
  | _ => none

/-- Model of `pd.to_numeric(x, errors="coerce")` on one cell
(src/spxvolbar3axes.py line 62, src/spxvolbar3jes.py lines 55-58): a plain
signed decimal literal coerces to its value, anything else to NaN (`none`). -/
def toNumeric? (s : String) : Option ℚ :=
  match s.toList with
  | '-' :: rest => (parseUnsigned? rest).map (fun q => -q)
  | l => parseUnsigned? l

/-- One raw data row of the snapshot file: the four string cells of the
declared schema, before numeric coercion. -/
structure RawVolRow where
  strike : String
  vol0DTE : String
  vol1DTE : String
  otherVol : String
deriving DecidableEq, Repr

/-- Row-wise coercion: the row survives exactly when all four required
fields coerce to numbers; otherwise the later `dropna` removes it whole. -/
def coerceVolRow (r : RawVolRow) : Option VolRow := do
  let s ← toNumeric? r.strike
  let v0 ← toNumeric? r.vol0DTE
  let v1 ← toNumeric? r.vol1DTE
  let vo ← toNumeric? r.otherVol
  pure ⟨s, v0, v1, vo⟩

/-- `df[numeric_cols] = df[numeric_cols].apply(pd.to_numeric, errors="coerce")`
followed by `df.dropna(inplace=True)`
(src/spxvolbar3axes.py lines 61-63, src/spxvolbar3jes.py lines 55-59):
keep exactly the rows whose four fields are all numeric. -/
def cleanRows (df : List RawVolRow) : List VolRow :=
  df.filterMap coerceVolRow

/-! ## Timestamp parsing (Generar0DTE.py) -/

/-- A parsed wall-clock timestamp. -/
structure Timestamp where
  year : ℕ
  month : ℕ
  day : ℕ
  hour : ℕ
  minute : ℕ
  second : ℕ
deriving DecidableEq, Repr

/-- A time-indexed table row: timestamp index plus indicator columns. -/
structure TimeRow where
  time : Timestamp
  values : List ℚ
deriving DecidableEq, Repr

/-- Two decimal digits. -/
def twoDigits? (a b : Char) : Option ℕ :=
  if isDigitCh a && isDigitCh b then some (10 * (a.toNat - 48) + (b.toNat - 48))
  else none

/-- Four decimal digits. -/
def fourDigits? (a b c d : Char) : Option ℕ :=
  if isDigitCh a && isDigitCh b && isDigitCh c && isDigitCh d then
    some (1000 * (a.toNat - 48) + 100 * (b.toNat - 48) + 10 * (c.toNat - 48) + (d.toNat - 48))
  else none

/-- Calendar sanity bounds enforced by `strptime`-style parsing. -/
def validDate (y mo d : ℕ) : Bool :=
  decide (1 ≤ y) && decide (1 ≤ mo) && decide (mo ≤ 12) && decide (1 ≤ d) && decide (d ≤ 31)

/-- Time-of-day sanity bounds enforced by `strptime`-style parsing. -/
def validTime (h mi s : ℕ) : Bool :=
  decide (h ≤ 23) && decide (mi ≤ 59) && decide (s ≤ 59)

/-- Strict parser for the primary timestamp format `%Y-%m-%d %H:%M:%S`
(src/Generar0DTE.py line 57). -/
def parsePrimaryTime (s : String) : Option Timestamp :=
  match s.toList with
  | [y1, y2, y3, y4, '-', a1, a2, '-', d1, d2, ' ', h1, h2, ':', m1, m2, ':', s1, s2] => do
      let y ← fourDigits? y1 y2 y3 y4
      let mo ← twoDigits? a1 a2
      let d ← twoDigits? d1 d2
      let h ← twoDigits? h1 h2
      let mi ← twoDigits? m1 m2
      let sec ← twoDigits? s1 s2
      if validDate y mo d && validTime h mi sec then pure ⟨y, mo, d, h, mi, sec⟩ else none
  | _ => none

/-- Strict parser for the first fallback format `%Y-%m-%d`
(src/Generar0DTE.py line 61); a bare date carries midnight time. -/
def parseDateOnlyTime (s : String) : Option Timestamp :=
  match s.toList with
  | [y1, y2, y3, y4, '-', a1, a2, '-', d1, d2] => do
      let y ← fourDigits? y1 y2 y3 y4
      let mo ← twoDigits? a1 a2
      let d ← twoDigits? d1 d2
      if validDate y mo d then pure ⟨y, mo, d, 0, 0, 0⟩ else none
  | _ => none

/-- `pd.to_datetime(..., format='mixed')` (src/Generar0DTE.py line 64)
modelled over the two concrete formats in play: each element is parsed with
whichever of the two formats matches it. -/
def parseMixedTime (s : String) : Option Timestamp :=
  (parsePrimaryTime s).orElse (fun _ => parseDateOnlyTime s)

/-- Column-wise parse: `pd.to_datetime` on a whole Series raises (modelled
by `none`) as soon as any element fails the given strategy. -/
def parseTimeColumn (f : String → Option Timestamp) (col : List String) :
    Option (List Timestamp) :=
  col.mapM f

/-- The three-stage try/except ladder of src/Generar0DTE.py lines 54-64:
exact primary format first, then `%Y-%m-%d`, then `format='mixed'`; the
load fails only if all three column-wise attempts fail. -/
def loadTimeColumn (col : List String) : Option (List Timestamp) :=
  (parseTimeColumn parsePrimaryTime col).orElse
    (fun _ => (parseTimeColumn parseDateOnlyTime col).orElse
      (fun _ => parseTimeColumn parseMixedTime col))

/-! ## Time-of-day window filter -/

/-- Seconds after midnight of a timestamp's time-of-day. -/
def timeOfDay (t : Timestamp) : ℕ :=
  t.hour * 3600 + t.minute * 60 + t.second

/-- Session window start "08:30" (src/generar_graficos.py line 58),
in seconds after midnight. -/
def horaInicio : ℕ := 8 * 3600 + 30 * 60

/-- Session window end "15:15" (src/generar_graficos.py line 59),
in seconds after midnight. -/
def horaFin : ℕ := 15 * 3600 + 15 * 60

/-- pandas `DataFrame.between_time(start, end)` with its default inclusive
endpoints (src/generar_graficos.py line 60, src/dataflow.py line 127): keep
the rows whose time-of-day lies in the closed window, wrapping past
midnight when start exceeds end; the original row order is preserved. -/
def betweenTime (lo hi : ℕ) (df : List TimeRow) : List TimeRow :=
  df.filter (fun r =>
    if lo ≤ hi then decide (lo ≤ timeOfDay r.time) && decide (timeOfDay r.time ≤ hi)
    else decide (lo ≤ timeOfDay r.time) || decide (timeOfDay r.time ≤ hi))

/-- `df.set_index('Time', inplace=True)` (src/Generar.py line 46): indexing
by the Time column applies no sorting and no deduplication, so the table
keeps its file order. -/
def setTimeIndex (df : List TimeRow) : List TimeRow :=
  df

/-! ## Persister target paths -/

/-- Character-level model of `os.path.basename` under the Windows rules the
scripts run with (both separators recognised): the suffix after the last
path separator. -/
def baseNameChars (l : List Char) : List Char :=
  l.foldl (fun acc c => if c = '/' || c = '\\' then [] else acc ++ [c]) []

/-- Stem half of `os.path.splitext`: cut at the last dot that is preceded
by some non-dot character (leading dots never start an extension). -/
def splitextStem (b : List Char) : List Char :=
  match ((List.range b.length).filter (fun i =>
      (b.get? i == some '.') &&
      (List.range i).any (fun j => b.get? j != some '.'))).getLast? with
  | some i => b.take i
  | none => b

/-- `base = os.path.splitext(os.path.basename(ruta_csv))[0]`
(src/Generar.py line 40, src/Generar0DTE.py line 47). -/
def baseStem (ruta : String) : String :=
  String.mk (splitextStem (baseNameChars ruta.toList))

/-- `os.path.join(dir, name)` under Windows join rules for a relative
`name`: insert a backslash unless the directory is empty or already ends
in a separator. -/
def joinPath (dir name : String) : String :=
  match dir.toList.getLast? with
  | none => name
  | some c => if c = '/' || c = '\\' then dir ++ name else dir ++ "\\" ++ name

/-- Target path of the watcher HTML persister:
`nombre_html = os.path.join(carpeta, f"{base}.html")`
(src/Generar.py lines 40-41, src/Generar0DTE.py lines 47-48). -/
def htmlTargetPath (dir ruta : String) : String :=
  joinPath dir (baseStem ruta ++ ".html")

/-- Artifact path of the snapshot variants:
`output_path = f"output/spx_volume_{timestamp}.png"`
(src/spxvolbar3axes.py lines 219-220), where `timestamp` is the wall-clock
time at serialization, formatted `%Y%m%d_%H%M%S` - not anything derived
from the input file's name. -/
def spxVolumeOutputPath (timestamp : String) : String :=
  "output/spx_volume_" ++ timestamp ++ ".png"

/-! ## Run outcome and pipeline composites -/

/-- What a single pipeline invocation does with an error. -/
inductive RunOutcome
  | ok
  | loggedSkip
  | raised
deriving DecidableEq, Repr

/-- Exception flow of `graficar_archivo` (src/Generar.py lines 39-142): the
try/except (lines 43-53) guards only the CSV read, the timestamp parse and
the index assignment; figure construction and the HTML write (lines 55-142)
run outside every handler, so an exception raised there escapes to the
caller - the watchdog event dispatch (line 150). -/
def graficarArchivoOutcome (loadRaises writeRaises : Bool) : RunOutcome :=
  if loadRaises then .loggedSkip
  else if writeRaises then .raised
  else .ok

/-- Exception flow of the timer-loop variants (src/spxvolbar3axes.py lines
31-235 and 292-309): `process_data` converts any exception of its body into
a logged `None`, and the `while True` cycle wraps `main()` in a second
try/except, so a cycle never raises. -/
def monitorCycleOutcome (bodyRaises : Bool) : RunOutcome :=
  if bodyRaises then .loggedSkip else .ok

/-- Observable outcome of one snapshot pipeline run. -/
structure SnapshotRun where
  outputPath : Option String
  wroteArtifact : Bool
  computedExtrema : Bool
  raised : Bool
deriving DecidableEq, Repr

/-- Core of `process_data` of src/spxvolbar3axes.py after numeric cleaning
(lines 66-231): band-filter the strikes; when the filter leaves no rows,
log a warning and return `None` with no artifact written and no extrema
computed (lines 74-76); otherwise sort, compute the extremum reference
lines (lines 134-142), save the chart to the timestamped path (lines
219-227) and return that path.  The body runs inside a try/except that
turns any exception into a logged `None` (lines 233-235), so the run never
raises. -/
def processDataAxes (spotSPX : ℚ) (timestamp : String) (df : List VolRow) : SnapshotRun :=
  let dfFiltered := filterStrikes (minStrikeAxes spotSPX) (maxStrikeAxes spotSPX) df
  if dfFiltered.isEmpty then ⟨none, false, false, false⟩
  else ⟨some (spxVolumeOutputPath timestamp), true, true, false⟩

/-! ## Snapshot load prefix with the SPY fallback (spxvolbar3axes.py) -/

/-- One raw CSV cell as seen by `pd.read_csv(..., header=None)`: a numeric
value, an empty field (read as NaN), or a non-numeric string. -/
inductive Cell
  | num (q : ℚ)
  | empty
  | text (s : String)
deriving DecidableEq, Repr

/-- A Python float: a finite value or NaN.  An empty CSV cell reads as NaN
and `float(nan)` succeeds, unlike `float` of a non-numeric string. -/
inductive PyFloat
  | val (q : ℚ)
  | nan
deriving DecidableEq, Repr

/-- `float(cell)`: numbers and NaN convert, a non-numeric string raises. -/
def cellToFloat : Cell → Except String PyFloat
  | .num q => .ok (.val q)
  | .empty => .ok .nan
  | .text s => .error ("could not convert string to float: " ++ s)

/-- `x / 10` on Python floats; NaN propagates. -/
def pyDiv10 : PyFloat → PyFloat
  | .val q => .val (q / 10)
  | .nan => .nan

/-- Tokenizer model of `pd.read_csv(path, header=None)` with the default C
engine: the first row fixes the column count; a later row with more fields
is a parser error; shorter rows are padded with NaN; an empty file is an
error. -/
def readCsv (rows : List (List Cell)) : Except String (List (List Cell)) :=
  match rows with
  | [] => .error "EmptyDataError"
  | r0 :: rest =>
      if rest.any (fun r => decide (r0.length < r.length)) then .error "ParserError"
      else .ok ((r0 :: rest).map (fun r => r ++ List.replicate (r0.length - r.length) Cell.empty))

/-- Result of the reference-price extraction of src/spxvolbar3axes.py lines
46-53; `warned` records whether the SPY-approximation warning fired. -/
structure SpotExtract where
  spotSPX : PyFloat
  spotES : PyFloat
  spotSPY : PyFloat
  warned : Bool
deriving DecidableEq, Repr

/-- `row.iloc[i]`-style positional cell access; missing positions raise. -/
def cellAt (row : List Cell) (i : ℕ) : Except String Cell :=
  match row.get? i with
  | some c => .ok c
  | none => .error "IndexError"

/-- src/spxvolbar3axes.py lines 46-53:
`spotSPX = float(df_raw.iloc[0,0])`, `spotES = float(df_raw.iloc[0,1])`,
`spotSPY = float(df_raw.iloc[0,2]) if len(df_raw.iloc[0]) > 2 else None`,
then, when `spotSPY is None`, substitute `spotSPX / 10` with a logged
warning. -/
def extractSpots (dfRaw : List (List Cell)) : Except String SpotExtract := do
  let row0 ← match dfRaw.head? with
    | some r => Except.ok r
    | none => Except.error "IndexError"
  let spotSPX ← cellToFloat (← cellAt row0 0)
  let spotES ← cellToFloat (← cellAt row0 1)
  if 2 < row0.length then do
    let spotSPY ← cellToFloat (← cellAt row0 2)
    pure ⟨spotSPX, spotES, spotSPY, false⟩
  else
    pure ⟨spotSPX, spotES, pyDiv10 spotSPX, true⟩

/-- `df = df_raw.iloc[1:]` followed by
`df.columns = ["Strike", "Vol0DTE", "Vol1DTE", "OtherVol"]`
(src/spxvolbar3axes.py lines 55-58): assigning four column names to a frame
whose width is not four raises a ValueError. -/
def assignVolColumns (dfRaw : List (List Cell)) : Except String (List (List Cell)) :=
  match dfRaw.head? with
  | none => .error "IndexError"
  | some r0 => if r0.length = 4 then .ok (dfRaw.drop 1) else .error "ValueError"

/-- Load prefix of `process_data` (src/spxvolbar3axes.py lines 43-58): read
the CSV, extract the reference prices (with the SPY fallback), and assign
the four-column schema. -/
def loadSnapshotAxes (fileRows : List (List Cell)) :
    Except String (SpotExtract × List (List Cell)) := do
  let dfRaw ← readCsv fileRows
  let spots ← extractSpots dfRaw
  let df ← assignVolColumns dfRaw
  pure (spots, df)

/-- The reference prices the run extracts, viewed through the CSV reader. -/
def spotsOf (fileRows : List (List Cell)) : Except String SpotExtract := do
  let dfRaw ← readCsv fileRows
  extractSpots dfRaw

/-- The surrounding try/except of `process_data` (src/spxvolbar3axes.py
lines 233-235) turns any raised load error into a logged `None`. -/
def processDataAxesLoad (fileRows : List (List Cell)) :
    Option (SpotExtract × List (List Cell)) :=
  (loadSnapshotAxes fileRows).toOption

/-! ## Concrete example inputs -/

/-- Two in-band rows whose derived totals are both negative. -/
def rowsAllNeg : List VolRow :=
  [⟨100, -3, -1, -1⟩, ⟨101, -1, -1, -1⟩]

/-- Two in-band rows sharing the same strike. -/
def rowsDupStrike : List VolRow :=
  [⟨100, 1, 0, 0⟩, ⟨100, 2, 0, 0⟩]

/-- A row before the session window and a row exactly on its lower bound. -/
def rowBefore : TimeRow := ⟨⟨2024, 1, 2, 8, 29, 0⟩, [100]⟩

/-- A row timestamped exactly 08:30:00. -/
def rowBoundary : TimeRow := ⟨⟨2024, 1, 2, 8, 30, 0⟩, [100]⟩

/-- A snapshot file whose first row carries only the SPX and ES reference
prices (no third SPY price) and whose single data row has the same width. -/
def fileNoSpy : List (List Cell) :=
  [[Cell.num 4800, Cell.num 4795], [Cell.num 4750, Cell.num 120]]

end GexPipeline

namespace GexPipeline

/-! ## Theorems -/

/-- Helper: membership in the band filter is exactly membership in the
source table together with both inclusive strike bounds. -/
theorem mem_filterStrikes (minStrike maxStrike : ℚ) (df : List VolRow) (r : VolRow) :
    r ∈ filterStrikes minStrike maxStrike df ↔
      r ∈ df ∧ minStrike ≤ r.strike ∧ r.strike ≤ maxStrike := by
  simp [filterStrikes, List.mem_filter]

/-- C2: for every snapshot table and the configured percentage band (1.5 %
in both cited variants), the filtered output retains exactly the rows whose
strike lies in the closed interval
`[reference_price * (1 - band), reference_price * (1 + band)]`: the cut
points used by the code are these two products, every retained row is a
source row whose strike satisfies both inclusive bounds, and no row outside
the interval survives. -/
theorem band_filter_inclusive_exact (spot : ℚ) (df : List VolRow) (r : VolRow) :
    (minStrikeAxes spot = spot * (1 - 15 / 1000) ∧
      maxStrikeAxes spot = spot * (1 + 15 / 1000)) ∧
    (r ∈ filterStrikes (minStrikeAxes spot) (maxStrikeAxes spot) df ↔
      r ∈ df ∧ spot * (1 - 15 / 1000) ≤ r.strike ∧ r.strike ≤ spot * (1 + 15 / 1000)) := by
  have hmin : minStrikeAxes spot = spot * (1 - 15 / 1000) := by
    unfold minStrikeAxes; ring
  have hmax : maxStrikeAxes spot = spot * (1 + 15 / 1000) := by
    unfold maxStrikeAxes; ring
  refine ⟨⟨hmin, hmax⟩, ?_⟩
  rw [mem_filterStrikes, hmin, hmax]

/-- Helper: a `filterMap` keeps exactly the inputs its function accepts. -/
theorem filterMap_length_add {α β : Type} (f : α → Option β) :
    ∀ l : List α,
      (l.filterMap f).length + (l.filter (fun a => (f a).isNone)).length = l.length
  | [] => rfl
  | a :: l => by
    have ih := filterMap_length_add f l
    cases h : f a with
    | none =>
        simp only [List.filterMap_cons, List.filter_cons, h, Option.isNone_none,
          if_true, List.length_cons]
        omega
    | some b =>
        simp only [List.filterMap_cons, List.filter_cons, h, Option.isNone_some,
          Bool.false_eq_true, if_false, List.length_cons]
        omega

/-- C5: the Loader's cleaned Series Table has exactly the input row count
minus the rows with some non-numeric required field, and every surviving
row is the untouched numeric coercion of one input row - rows are dropped
whole, never repaired or partially retained. -/
theorem loader_drops_nonnumeric_rows (df : List RawVolRow) :
    (cleanRows df).length =
      df.length - (df.filter (fun r => (coerceVolRow r).isNone)).length ∧
    (∀ v ∈ cleanRows df, ∃ raw, raw ∈ df ∧ coerceVolRow raw = some v) := by
  constructor
  · have h := filterMap_length_add coerceVolRow df
    unfold cleanRows
    omega
  · intro v hv
    exact (List.mem_filterMap.mp hv).imp (fun raw h => h)

/-- Helper: column-wise Option-valued `mapM` succeeds when the element
parser succeeds everywhere. -/
theorem parseTimeColumn_isSome (f : String → Option Timestamp) :
    ∀ col : List String, (∀ s ∈ col, (f s).isSome) →
      (parseTimeColumn f col).isSome
  | [], _ => rfl
  | s :: col, h => by
    obtain ⟨t, ht⟩ := Option.isSome_iff_exists.mp (h s (by simp))
    obtain ⟨l, hl⟩ := Option.isSome_iff_exists.mp
      (parseTimeColumn_isSome f col (fun x hx => h x (by simp [hx])))
    simp only [parseTimeColumn] at hl ⊢
    rw [List.mapM_cons, ht]
    simp only [hl]
    rfl

/-- Helper: column-wise parses agree when the element parsers agree on the
column's elements. -/
theorem parseTimeColumn_congr (f g : String → Option Timestamp) :
    ∀ col : List String, (∀ s ∈ col, f s = g s) →
      parseTimeColumn f col = parseTimeColumn g col
  | [], _ => rfl
  | s :: col, h => by
    have htail := parseTimeColumn_congr f g col (fun x hx => h x (by simp [hx]))
    simp only [parseTimeColumn] at htail ⊢
    rw [List.mapM_cons, List.mapM_cons, h s (by simp)]
    simp only [htail]

/-- C6: timestamp parsing is format-priority-ordered and deterministic -
when every string of the column parses under the primary exact format, the
load equals the primary column-wise parse (the fallbacks are never
consulted), invoking the mixed-format fallback instead would produce the
identical parse, and the load succeeds; moreover, for any column at all,
the load fails only when all three parsing attempts fail. -/
theorem time_parse_priority (col col2 : List String)
    (h : ∀ s ∈ col, (parsePrimaryTime s).isSome) :
    loadTimeColumn col = parseTimeColumn parsePrimaryTime col ∧
    parseTimeColumn parseMixedTime col = parseTimeColumn parsePrimaryTime col ∧
    (loadTimeColumn col).isSome ∧
    (loadTimeColumn col2 = none →
      parseTimeColumn parsePrimaryTime col2 = none ∧
      parseTimeColumn parseDateOnlyTime col2 = none ∧
      parseTimeColumn parseMixedTime col2 = none) := by
  obtain ⟨l, hl⟩ := Option.isSome_iff_exists.mp (parseTimeColumn_isSome parsePrimaryTime col h)
  have hload : loadTimeColumn col = parseTimeColumn parsePrimaryTime col := by
    unfold loadTimeColumn
    rw [hl]
    rfl
  have hmixed : parseTimeColumn parseMixedTime col = parseTimeColumn parsePrimaryTime col := by
    refine parseTimeColumn_congr _ _ col (fun s hs => ?_)
    obtain ⟨t, ht⟩ := Option.isSome_iff_exists.mp (h s hs)
    simp [parseMixedTime, ht, Option.orElse]
  refine ⟨hload, hmixed, by rw [hload, hl]; rfl, ?_⟩
  intro hnone
  unfold loadTimeColumn at hnone
  cases hp : parseTimeColumn parsePrimaryTime col2 with
  | some l2 =>
    rw [hp] at hnone
    simp [Option.orElse] at hnone
  | none =>
    rw [hp] at hnone
    simp only [Option.orElse] at hnone
    cases hd : parseTimeColumn parseDateOnlyTime col2 with
    | some l2 =>
      rw [hd] at hnone
      simp [Option.orElse] at hnone
    | none =>
      rw [hd] at hnone
      simp only [Option.orElse] at hnone
      exact ⟨rfl, rfl, hnone⟩


/-- C6 witness: a column consisting of one primary-format timestamp, and an
unparseable column on which the load fails only because all three attempts
fail. -/
theorem time_parse_priority_witness :
    loadTimeColumn ["2024-01-02 08:30:00"] =
      parseTimeColumn parsePrimaryTime ["2024-01-02 08:30:00"] ∧
    parseTimeColumn parseMixedTime ["2024-01-02 08:30:00"] =
      parseTimeColumn parsePrimaryTime ["2024-01-02 08:30:00"] ∧
    (loadTimeColumn ["2024-01-02 08:30:00"]).isSome ∧
    (loadTimeColumn ["not-a-date"] = none →
      parseTimeColumn parsePrimaryTime ["not-a-date"] = none ∧
      parseTimeColumn parseDateOnlyTime ["not-a-date"] = none ∧
      parseTimeColumn parseMixedTime ["not-a-date"] = none) :=
  time_parse_priority ["2024-01-02 08:30:00"] ["not-a-date"] (by decide)

/-- C7: with a configured window whose start does not exceed its end, the
time-of-day filter retains exactly the rows whose time-of-day lies within
the closed window (both endpoints inclusive), and the retained rows appear
in their original order (the output is a sublist of the input). -/
theorem between_time_inclusive_window (lo hi : ℕ) (hw : lo ≤ hi) (df : List TimeRow) :
    (∀ r, r ∈ betweenTime lo hi df ↔
      r ∈ df ∧ lo ≤ timeOfDay r.time ∧ timeOfDay r.time ≤ hi) ∧
    (betweenTime lo hi df).Sublist df := by
  constructor
  · intro r
    simp [betweenTime, List.mem_filter, hw]
  · exact List.filter_sublist df

/-- C7 witness: under the hard-coded 08:30-15:15 session window, the row
timestamped 08:29:00 is dropped and the row timestamped exactly 08:30:00 is
retained. -/
theorem between_time_inclusive_window_witness :
    horaInicio ≤ horaFin ∧
    rowBoundary ∈ betweenTime horaInicio horaFin [rowBefore, rowBoundary] ∧
    rowBefore ∉ betweenTime horaInicio horaFin [rowBefore, rowBoundary] := by
  have h := between_time_inclusive_window horaInicio horaFin (by decide)
    [rowBefore, rowBoundary]
  refine ⟨by decide, ?_, ?_⟩
  · exact (h.1 rowBoundary).mpr ⟨by decide, by decide, by decide⟩
  · intro hmem
    exact absurd ((h.1 rowBefore).mp hmem).2.1 (by decide)

/-- Helper: one-step unfolding of `idxmaxTotal` on a nonempty table. -/
theorem idxmaxTotal_cons (r : VolRow) (rs : List VolRow) :
    idxmaxTotal (r :: rs) =
      match idxmaxTotal rs with
      | none => some r
      | some m => if totalVol m ≤ totalVol r then some r else some m := rfl

/-- Helper: one-step unfolding of `idxminTotal` on a nonempty table. -/
theorem idxminTotal_cons (r : VolRow) (rs : List VolRow) :
    idxminTotal (r :: rs) =
      match idxminTotal rs with
      | none => some r
      | some m => if totalVol r ≤ totalVol m then some r else some m := rfl

/-- Helper: `idxmaxTotal` of a nonempty table is a member attaining the
maximum derived total. -/
theorem idxmaxTotal_spec :
    ∀ df : List VolRow, df ≠ [] →
      ∃ r, idxmaxTotal df = some r ∧ r ∈ df ∧ ∀ x ∈ df, totalVol x ≤ totalVol r := by
  intro df
  induction df with
  | nil => exact fun h => absurd rfl h
  | cons r rs ih =>
    intro _
    cases rs with
    | nil => exact ⟨r, rfl, by simp, by simp⟩
    | cons r2 rs2 =>
      obtain ⟨m, hm, hmem, hmax⟩ := ih (by simp)
      by_cases hle : totalVol m ≤ totalVol r
      · refine ⟨r, ?_, by simp, ?_⟩
        · rw [idxmaxTotal_cons, hm]
          simp [hle]
        · intro x hx
          rcases List.mem_cons.mp hx with h1 | h2
          · subst h1; exact le_refl _
          · exact le_trans (hmax x h2) hle
      · refine ⟨m, ?_, List.mem_cons_of_mem _ hmem, ?_⟩
        · rw [idxmaxTotal_cons, hm]
          simp [hle]
        · intro x hx
          rcases List.mem_cons.mp hx with h1 | h2
          · subst h1; exact le_of_not_le hle
          · exact hmax x h2

/-- Helper: `idxminTotal` of a nonempty table is a member attaining the
minimum derived total. -/
theorem idxminTotal_spec :
    ∀ df : List VolRow, df ≠ [] →
      ∃ r, idxminTotal df = some r ∧ r ∈ df ∧ ∀ x ∈ df, totalVol r ≤ totalVol x := by
  intro df
  induction df with
  | nil => exact fun h => absurd rfl h
  | cons r rs ih =>
    intro _
    cases rs with
    | nil => exact ⟨r, rfl, by simp, by simp⟩
    | cons r2 rs2 =>
      obtain ⟨m, hm, hmem, hmin⟩ := ih (by simp)
      by_cases hle : totalVol r ≤ totalVol m
      · refine ⟨r, ?_, by simp, ?_⟩
        · rw [idxminTotal_cons, hm]
          simp [hle]
        · intro x hx
          rcases List.mem_cons.mp hx with h1 | h2
          · subst h1; exact le_refl _
          · exact le_trans hle (hmin x h2)
      · refine ⟨m, ?_, List.mem_cons_of_mem _ hmem, ?_⟩
        · rw [idxminTotal_cons, hm]
          simp [hle]
        · intro x hx
          rcases List.mem_cons.mp hx with h1 | h2
          · subst h1; exact le_of_not_le hle
          · exact hmin x h2

/-- C4 counterexample: on a filtered table whose derived totals are all
strictly negative, the three-scale variant still computes a positive
extremum target (`idxmax`), which the claim permits only when some row's
derived total is positive. -/
theorem axes_positive_extremum_without_positive_total :
    (idxmaxTotal
      (filterStrikes (minStrikeAxes 100) (maxStrikeAxes 100) rowsAllNeg)).isSome = true ∧
    filterStrikes (minStrikeAxes 100) (maxStrikeAxes 100) rowsAllNeg ≠ [] ∧
    ∀ r ∈ filterStrikes (minStrikeAxes 100) (maxStrikeAxes 100) rowsAllNeg,
      totalVol r < 0 := by
  have hfilter : filterStrikes (minStrikeAxes 100) (maxStrikeAxes 100) rowsAllNeg =
      rowsAllNeg := by
    unfold filterStrikes rowsAllNeg minStrikeAxes maxStrikeAxes
    norm_num [List.filter_cons]
  refine ⟨?_, ?_, ?_⟩
  · obtain ⟨m, hm, -, -⟩ := idxmaxTotal_spec rowsAllNeg (by simp [rowsAllNeg])
    rw [hfilter, hm]
    rfl
  · rw [hfilter]
    simp [rowsAllNeg]
  · rw [hfilter]
    intro r hr
    simp only [rowsAllNeg, List.mem_cons, List.not_mem_nil, or_false] at hr
    rcases hr with rfl | rfl <;> norm_num [totalVol]

/-- C4 (amended): for every non-empty filtered snapshot table, the
three-scale variant unconditionally identifies as annotation targets the
first row attaining the maximum derived total and the first row attaining
the minimum derived total, regardless of the totals' signs; both targets
are rows of the table, which they are not removed from. -/
theorem axes_extrema_marks_max_and_min (df : List VolRow) (h : df ≠ []) :
    (∃ rmax, idxmaxTotal df = some rmax ∧ rmax ∈ df ∧
      ∀ x ∈ df, totalVol x ≤ totalVol rmax) ∧
    (∃ rmin, idxminTotal df = some rmin ∧ rmin ∈ df ∧
      ∀ x ∈ df, totalVol rmin ≤ totalVol x) :=
  ⟨idxmaxTotal_spec df h, idxminTotal_spec df h⟩

/-- C4 witness: the amended theorem applied to a concrete one-row table. -/
theorem axes_extrema_marks_max_and_min_witness :
    ([(⟨100, 1, 0, 0⟩ : VolRow)] ≠ []) ∧
    ((∃ rmax, idxmaxTotal [(⟨100, 1, 0, 0⟩ : VolRow)] = some rmax ∧
        rmax ∈ [(⟨100, 1, 0, 0⟩ : VolRow)] ∧
        ∀ x ∈ [(⟨100, 1, 0, 0⟩ : VolRow)], totalVol x ≤ totalVol rmax) ∧
      (∃ rmin, idxminTotal [(⟨100, 1, 0, 0⟩ : VolRow)] = some rmin ∧
        rmin ∈ [(⟨100, 1, 0, 0⟩ : VolRow)] ∧
        ∀ x ∈ [(⟨100, 1, 0, 0⟩ : VolRow)], totalVol rmin ≤ totalVol x)) :=
  ⟨by decide, axes_extrema_marks_max_and_min [⟨100, 1, 0, 0⟩] (by decide)⟩

/-- C9 counterexample: two in-band rows share strike 100, so the normalized
(sorted) snapshot table handed to rendering carries a duplicated index
value - the uniqueness half of the claim fails. -/
theorem snapshot_index_can_repeat :
    ¬ ((sortByStrike
        (filterStrikes (minStrikeAxes 100) (maxStrikeAxes 100) rowsDupStrike)).map
          VolRow.strike).Nodup := by
  have hfilter : filterStrikes (minStrikeAxes 100) (maxStrikeAxes 100) rowsDupStrike =
      rowsDupStrike := by
    unfold filterStrikes rowsDupStrike minStrikeAxes maxStrikeAxes
    norm_num [List.filter_cons]
  rw [hfilter]
  have hsort : sortByStrike rowsDupStrike = rowsDupStrike := by
    unfold sortByStrike rowsDupStrike
    norm_num [List.insertionSort, List.orderedInsert]
  rw [hsort]
  simp [rowsDupStrike]

/-- C9 (amended): after normalization the snapshot table's strike index is
monotone (sorted non-decreasing) and the table is a permutation of the
filtered rows - duplicates included, nothing deduplicated - while the
time-indexed variant's index assignment performs no reordering at all. -/
theorem snapshot_normalize_sorted_not_deduped (df : List VolRow) (dft : List TimeRow) :
    List.Sorted (· ≤ ·) ((sortByStrike df).map VolRow.strike) ∧
    (sortByStrike df).Perm df ∧
    setTimeIndex dft = dft := by
  refine ⟨?_, List.perm_insertionSort _ df, rfl⟩
  have h := List.sorted_insertionSort (fun a b : VolRow => a.strike ≤ b.strike) df
  exact List.pairwise_map.mpr h

/-- C3 counterexample: the snapshot persister's target path embeds the wall
clock at serialization (`output/spx_volume_{timestamp}.png`), so two runs
over the same unchanged input file target different artifact paths. -/
theorem snapshot_target_path_not_deterministic :
    spxVolumeOutputPath "20240102_083000" ≠ spxVolumeOutputPath "20240102_083500" := by
  decide

/-- C3 (amended): the watcher HTML persister derives its target path
deterministically from the source file's base-name stem with a new
extension, so any two inputs with the same stem - in particular two runs
over the same file - target the same artifact path; the snapshot PNG
variants instead embed the wall-clock timestamp. -/
theorem html_target_path_deterministic (dir p q : String)
    (h : baseStem p = baseStem q) :
    htmlTargetPath dir p = htmlTargetPath dir q := by
  unfold htmlTargetPath
  rw [h]

/-- C3 witness: the same `spy_gex_history.csv` name under two directories
yields one target stem and one target path. -/
theorem html_target_path_deterministic_witness :
    baseStem "E:\\GEX\\Sync\\spy_gex_history.csv" = baseStem "C:\\otra\\spy_gex_history.csv" ∧
    htmlTargetPath "D:\\salida" "E:\\GEX\\Sync\\spy_gex_history.csv" =
      htmlTargetPath "D:\\salida" "C:\\otra\\spy_gex_history.csv" :=
  ⟨by decide, html_target_path_deterministic "D:\\salida"
    "E:\\GEX\\Sync\\spy_gex_history.csv" "C:\\otra\\spy_gex_history.csv" (by decide)⟩

/-- C8: when the band filter leaves zero rows, the snapshot run is a logged
no-op - no artifact path, nothing written, no extrema computed, and no
exception escapes. -/
theorem empty_band_is_noop (spotSPX : ℚ) (timestamp : String) (df : List VolRow)
    (h : filterStrikes (minStrikeAxes spotSPX) (maxStrikeAxes spotSPX) df = []) :
    processDataAxes spotSPX timestamp df = ⟨none, false, false, false⟩ := by
  unfold processDataAxes
  simp [h]

/-- C8 witness: a single strike far outside the band empties the filter. -/
theorem empty_band_is_noop_witness :
    filterStrikes (minStrikeAxes 100) (maxStrikeAxes 100) [(⟨200, 1, 1, 1⟩ : VolRow)] = [] ∧
    processDataAxes 100 "20240102_083000" [(⟨200, 1, 1, 1⟩ : VolRow)] =
      ⟨none, false, false, false⟩ := by
  have hfilter :
      filterStrikes (minStrikeAxes 100) (maxStrikeAxes 100) [(⟨200, 1, 1, 1⟩ : VolRow)] = [] := by
    unfold filterStrikes minStrikeAxes maxStrikeAxes
    norm_num [List.filter_cons]
  exact ⟨hfilter, empty_band_is_noop 100 "20240102_083000" [⟨200, 1, 1, 1⟩] hfilter⟩

/-- C1 (code bug, evaluated at the failing input): in the watcher variant a
disk-write failure during serialization escapes `graficar_archivo`
uncaught (only the load block is guarded), while a load failure is caught
and logged; the timer-loop variant contains every cycle error. -/
theorem write_failure_escapes_watcher_run :
    graficarArchivoOutcome false true = RunOutcome.raised ∧
    graficarArchivoOutcome true false = RunOutcome.loggedSkip ∧
    monitorCycleOutcome true = RunOutcome.loggedSkip := by decide

/-- C10 counterexample: a snapshot file whose first row carries no third
reference price.  The SPX/10 substitution and its warning do fire, but the
run then aborts (the two-column frame cannot take the four-column schema)
and returns `None` - no SPY tick labels are ever computed - contradicting
the claim that the pipeline does not fail. -/
theorem spy_fallback_aborts_run_cex :
    processDataAxesLoad fileNoSpy = none ∧
    (spotsOf fileNoSpy).toOption =
      some ⟨PyFloat.val 4800, PyFloat.val 4795, PyFloat.val 480, true⟩ := by
  refine ⟨rfl, ?_⟩
  have h : (spotsOf fileNoSpy).toOption =
      some ⟨PyFloat.val 4800, PyFloat.val 4795, PyFloat.val (4800 / 10), true⟩ := rfl
  rw [h]
  simp only [Option.some.injEq, SpotExtract.mk.injEq, PyFloat.val.injEq]
  norm_num

/-- C10 (amended): whenever the input file's rows are at most two columns
wide and its first row holds two numeric reference prices (the only shape
in which the third price is `None`), the run substitutes `spotSPX / 10` as
the SPY price with a warning, and then fails at the four-column schema
assignment, returning `None`; the SPY tick labels are never computed. -/
theorem spy_fallback_then_run_fails (a b : ℚ) (rest : List (List Cell))
    (hrest : ∀ r ∈ rest, r.length ≤ 2) :
    (spotsOf ([Cell.num a, Cell.num b] :: rest)).toOption =
      some ⟨PyFloat.val a, PyFloat.val b, PyFloat.val (a / 10), true⟩ ∧
    processDataAxesLoad ([Cell.num a, Cell.num b] :: rest) = none := by
  have hany : (rest.any (fun r =>
      decide (([Cell.num a, Cell.num b] : List Cell).length < r.length))) = false := by
    simp only [List.any_eq_false, decide_eq_true_eq, List.length_cons, List.length_nil,
      not_lt]
    intro r hr
    have := hrest r hr
    omega
  have hread : readCsv ([Cell.num a, Cell.num b] :: rest) =
      .ok (([Cell.num a, Cell.num b] :: rest).map
        (fun r => r ++ List.replicate
          (([Cell.num a, Cell.num b] : List Cell).length - r.length) Cell.empty)) := by
    show (if (rest.any (fun r =>
          decide (([Cell.num a, Cell.num b] : List Cell).length < r.length))) = true
        then (Except.error "ParserError" : Except String (List (List Cell)))
        else .ok (([Cell.num a, Cell.num b] :: rest).map
          (fun r => r ++ List.replicate
            (([Cell.num a, Cell.num b] : List Cell).length - r.length) Cell.empty))) =
      .ok (([Cell.num a, Cell.num b] :: rest).map
        (fun r => r ++ List.replicate
          (([Cell.num a, Cell.num b] : List Cell).length - r.length) Cell.empty))
    rw [hany]
    simp
  have h1 : spotsOf ([Cell.num a, Cell.num b] :: rest) =
      .ok ⟨PyFloat.val a, PyFloat.val b, PyFloat.val (a / 10), true⟩ := by
    unfold spotsOf
    rw [hread]
    rfl
  have h2 : loadSnapshotAxes ([Cell.num a, Cell.num b] :: rest) = .error "ValueError" := by
    unfold loadSnapshotAxes
    rw [hread]
    rfl
  constructor
  · rw [h1]
    rfl
  · unfold processDataAxesLoad
    rw [h2]
    rfl

/-- C10 witness: the amended theorem applied to a concrete two-column
snapshot file. -/
theorem spy_fallback_then_run_fails_witness :
    (∀ r ∈ [[Cell.num 4750, Cell.num 120]], List.length r ≤ 2) ∧
    (spotsOf ([Cell.num 4800, Cell.num 4795] :: [[Cell.num 4750, Cell.num 120]])).toOption =
      some ⟨PyFloat.val 4800, PyFloat.val 4795, PyFloat.val (4800 / 10), true⟩ ∧
    processDataAxesLoad
      ([Cell.num 4800, Cell.num 4795] :: [[Cell.num 4750, Cell.num 120]]) = none := by
  have hlen : ∀ r ∈ [[Cell.num 4750, Cell.num 120]], List.length r ≤ 2 := by
    intro r hr
    simp only [List.mem_singleton] at hr
    subst hr
    simp
  have h := spy_fallback_then_run_fails 4800 4795 [[Cell.num 4750, Cell.num 120]] hlen
  exact ⟨hlen, h.1, h.2⟩

end GexPipeline
